import Mathlib

/-!
Verification of the splitwise-backend authentication core.

Shallow embedding of the authentication and credential-verification pipeline:
`src/utils/jwt.ts` (token issuance, verification, header extraction),
`src/middleware/auth.ts` (the `authenticateToken` identity-resolution middleware),
`src/models/User.ts` (the pre-save password hashing hook, `findByEmail`,
`UserModelLegacy.findById`), and `src/controllers/authController.ts` (the
`login` handler).  External collaborators (the `jsonwebtoken` library,
`bcryptjs`, the mongoose document store) are modelled at the interfaces the
specification gives for them; everything else is translated directly from the
TypeScript source.  Machine time is modelled as seconds since the epoch
(`Nat`), matching the second-granularity `iat`/`exp` claims of JWTs.
-/

namespace Splitwise

/-! ## Data model -/

/-- The `JwtPayload` interface of `src/types/index.ts`: the data the caller
asks to embed in a token. -/
structure JwtPayload where
  userId : String
  email : String
deriving DecidableEq, Repr

/-- The full claim set carried by a signed token after `jwt.sign` adds the
registered claims: subject data plus issuer, audience, issued-at and expiry. -/
structure DecodedClaims where
  userId : String
  email : String
  iss : String
  aud : String
  iat : Nat
  exp : Nat
deriving DecidableEq, Repr

/-- A token string as transmitted on the wire, viewed abstractly: either a
well-formed JWT carrying a claim set and signed under some secret, or a string
that does not parse as a JWT at all. -/
inductive Token where
  | signed (claims : DecodedClaims) (secret : String)
  | garbage (raw : String)
deriving DecidableEq, Repr

/-- The error classes thrown by the `jsonwebtoken` library that
`verifyToken` discriminates on: `TokenExpiredError` and the general
`JsonWebTokenError` (which covers malformed tokens, bad signatures and
issuer/audience mismatches alike). -/
inductive JwtError where
  | tokenExpired
  | jsonWebTokenError (msg : String)
deriving DecidableEq, Repr

/-! ## The jsonwebtoken library, at its interface -/

/-- Modelled from the spec: `issue` of the Token Issuer (§4.2) as realised by
the external `jsonwebtoken` library's `jwt.sign` — it embeds the payload
together with issuer, audience, issued-at = now and expiry = now + TTL, and
signs the result with the given secret. -/
def jwtSign (payload : JwtPayload) (secret : String) (expiresInSec : Nat)
    (iss aud : String) (now : Nat) : Token :=
  .signed ⟨payload.userId, payload.email, iss, aud, now, now + expiresInSec⟩ secret

/-- Modelled from the spec: `verify` of the Token Issuer (§4.2) as realised by
the external `jsonwebtoken` library's `jwt.verify` — it rejects unparseable
strings and wrong-secret signatures with `JsonWebTokenError`, rejects tokens
whose expiry has been reached (`now ≥ exp`) with `TokenExpiredError`, rejects
audience/issuer mismatches with `JsonWebTokenError`, and otherwise returns the
embedded claims unchanged. -/
def jwtVerify (t : Token) (secret : String) (iss aud : String) (now : Nat) :
    Except JwtError DecodedClaims :=
  match t with
  | .garbage _ => .error (.jsonWebTokenError "jwt malformed")
  | .signed c s =>
    if s ≠ secret then .error (.jsonWebTokenError "invalid signature")
    else if c.exp ≤ now then .error .tokenExpired
    else if c.aud ≠ aud then .error (.jsonWebTokenError "jwt audience invalid")
    else if c.iss ≠ iss then .error (.jsonWebTokenError "jwt issuer invalid")
    else .ok c

/-! ## src/utils/jwt.ts -/

/-- Line 23: `const JWT_SECRET = process.env.JWT_SECRET || 'your-super-secret-jwt-key'`.
The environment variable is either absent (`none`) or a string; JavaScript `||`
also falls through on the empty string. -/
def JWT_SECRET (env : Option String) : String :=
  match env with
  | none => "your-super-secret-jwt-key"
  | some s => if s = "" then "your-super-secret-jwt-key" else s

/-- Line 26: `const JWT_EXPIRES_IN = process.env.JWT_EXPIRES_IN || '24h'`.
Declared configuration for the token lifetime; note that `generateToken` below
never consults it. -/
def JWT_EXPIRES_IN (env : Option String) : String :=
  match env with
  | none => "24h"
  | some s => if s = "" then "24h" else s

/-- Lines 56–64: `generateToken` signs the payload with the module secret,
`expiresIn: 12 * 60 * 60`, issuer `'splitwise-api'`, audience
`'splitwise-client'`. -/
def generateToken (secret : String) (payload : JwtPayload) (now : Nat) : Token :=
  jwtSign payload secret (12 * 60 * 60) "splitwise-api" "splitwise-client" now

/-- Lines 91–108: `verifyToken` calls `jwt.verify` with the expected
issuer/audience and remaps the library errors: `TokenExpiredError` becomes
`'Token has expired'` and every `JsonWebTokenError` becomes
`'Invalid token format'`. -/
def verifyToken (secret : String) (t : Token) (now : Nat) :
    Except String DecodedClaims :=
  match jwtVerify t secret "splitwise-api" "splitwise-client" now with
  | .ok c => .ok c
  | .error .tokenExpired => .error "Token has expired"
  | .error (.jsonWebTokenError _) => .error "Invalid token format"

/-- JavaScript `s.split(' ')` over the character list: splits at every single
space, keeping empty segments, and yields `[""]` on the empty string. -/
def jsSplitSpaceAux : List Char → List Char → List String
  | [], acc => [String.mk acc.reverse]
  | c :: rest, acc =>
    if c = ' ' then String.mk acc.reverse :: jsSplitSpaceAux rest []
    else jsSplitSpaceAux rest (c :: acc)

/-- JavaScript `String.prototype.split(' ')`. -/
def jsSplitSpace (s : String) : List String :=
  jsSplitSpaceAux s.data []

/-- Whitespace as stripped by JavaScript `String.prototype.trim()`. -/
def isJsWhitespace (c : Char) : Bool :=
  c == ' ' || c == '\t' || c == '\n' || c == '\r'

/-- JavaScript `String.prototype.trim()`: strip leading and trailing
whitespace. -/
def jsTrim (s : String) : String :=
  String.mk (((s.data.dropWhile isJsWhitespace).reverse.dropWhile isJsWhitespace).reverse)

/-- Lines 141–156: `extractTokenFromHeader`.  `!authHeader` is true both for an
absent header and for the empty string; the header must split on single spaces
into exactly `['Bearer', token]`; a blank token (empty or whitespace-only) is
rejected; otherwise the token part is returned. -/
def extractTokenFromHeader : Option String → Except String String
  | none => .error "Authorization header is required"
  | some h =>
    if h = "" then .error "Authorization header is required"
    else
      match jsSplitSpace h with
      | [b, t] =>
        if b ≠ "Bearer" then
          .error "Invalid authorization header format. Expected: Bearer <token>"
        else if t = "" ∨ jsTrim t = "" then
          .error "Token is missing from authorization header"
        else .ok t
      | _ => .error "Invalid authorization header format. Expected: Bearer <token>"

/-! ## bcrypt and the user store -/

/-- Modelled from the spec: a credential hash (§3, §4.1) produced by the
external `bcryptjs` library — a one-way digest of the plaintext under a salt
and cost factor.  The plaintext component stands for the irreversible digest;
nothing in the development inverts it. -/
structure BcryptHash where
  cost : Nat
  salt : Nat
  plain : String
deriving DecidableEq, Repr

/-- Modelled from the spec: `hash(plaintext, costFactor)` of the Credential
Hasher (§4.1), with the salt drawn by the library made explicit. -/
def bcryptHash (plain : String) (cost salt : Nat) : BcryptHash :=
  ⟨cost, salt, plain⟩

/-- Modelled from the spec: `verify(plaintext, storedHash)` of the Credential
Hasher (§4.1) — recomputes under the embedded salt and compares; true exactly
when the candidate is the plaintext the hash was derived from. -/
def bcryptCompare (candidate : String) (h : BcryptHash) : Bool :=
  candidate == h.plain

/-- A persisted user record (`IUser` of `src/models/User.ts`): the password
field holds the bcrypt hash after the pre-save hook has run. -/
structure StoredUser where
  id : String
  email : String
  password : BcryptHash
  firstName : String
  lastName : String
  createdAt : Nat
deriving DecidableEq, Repr

/-- The user collection of the document store. -/
abbrev UserStore := List StoredUser

/-- JavaScript `String.prototype.toLowerCase()` (ASCII range). -/
def jsToLower (s : String) : String :=
  String.mk (s.data.map Char.toLower)

/-- Lines 84–86 of `src/models/User.ts`: `findByEmail` lowercases the query
and looks the email up in the store (stored emails are lowercased on save by
the schema's `lowercase: true`). -/
def findByEmail (store : UserStore) (email : String) : Option StoredUser :=
  store.find? (fun u => u.email == jsToLower email)

/-- A well-formed store identifier: a value mongoose can cast to an ObjectId —
a 24-character hex string (or a 12-character string taken as raw bytes). -/
def isValidObjectId (id : String) : Bool :=
  (id.length == 24 && id.data.all (fun c =>
    c.isDigit || (decide ('a' ≤ c) && decide (c ≤ 'f'))
      || (decide ('A' ≤ c) && decide (c ≤ 'F'))))
  || id.length == 12

/-- Modelled from the spec: the document store's `findById(id) -> User|absent`
(§6) as exposed by the raw mongoose model — with the driver behaviour that
`UserModelLegacy.findById`'s try/catch (User.ts lines 138–140) guards against:
an identifier that is not a well-formed store identifier makes the lookup
throw a cast error instead of returning absent. -/
def rawFindById (store : UserStore) (id : String) : Except String (Option StoredUser) :=
  if isValidObjectId id then .ok (store.find? (fun u => u.id == id))
  else .error ("Cast to ObjectId failed for value " ++ id)

/-- Lines 125–141 of `src/models/User.ts`: `UserModelLegacy.findById` wraps the
raw lookup in try/catch and returns `undefined` both when no user matches and
when the raw lookup throws. -/
def legacyFindById (store : UserStore) (id : String) : Option StoredUser :=
  match rawFindById store id with
  | .ok r => r
  | .error _ => none

/-- Lines 65–76 of `src/models/User.ts`: the pre-save hook hashes the incoming
plaintext password with bcrypt before it is persisted (`saltRounds` from
configuration, `salt` drawn by the library). -/
def preSaveHash (plain : String) (saltRounds salt : Nat) : BcryptHash :=
  bcryptHash plain saltRounds salt

/-! ## Responses, login, and the middleware -/

/-- The user object embedded in successful auth responses (password never
included). -/
structure UserView where
  id : String
  firstName : String
  lastName : String
  email : String
  createdAt : Nat
deriving DecidableEq, Repr

/-- The `data` member of a successful auth response: user view plus token. -/
structure AuthData where
  user : UserView
  token : Token
deriving DecidableEq, Repr

/-- The `ApiResponse` interface of `src/types/index.ts`. -/
structure ApiResponse where
  success : Bool
  message : String
  data : Option AuthData
  error : Option String
deriving DecidableEq, Repr

/-- Lines 276–330 of `src/controllers/authController.ts`: the `login` handler
after Joi validation has accepted the body — look the user up by email, reject
with the generic 401 payload if absent, compare the password with bcrypt,
reject with the same generic 401 payload on mismatch, otherwise issue a token
and answer 200.  The result is the HTTP status paired with the JSON body. -/
def login (store : UserStore) (secret : String) (now : Nat)
    (email password : String) : Nat × ApiResponse :=
  match findByEmail store email with
  | none =>
    (401, ⟨false, "Authentication failed", none, some "Invalid email or password"⟩)
  | some user =>
    if bcryptCompare password user.password then
      (200, ⟨true, "Login successful",
        some ⟨⟨user.id, user.firstName, user.lastName, user.email, user.createdAt⟩,
          generateToken secret ⟨user.id, user.email⟩ now⟩, none⟩)
    else
      (401, ⟨false, "Authentication failed", none, some "Invalid email or password"⟩)

/-- What the middleware does with a request: either a response was sent, or
`req.user` was set to the decoded payload and `next()` was called. -/
inductive AuthOutcome where
  | sent (status : Nat) (body : ApiResponse)
  | proceeded (user : JwtPayload)
deriving DecidableEq, Repr

/-- Lines 62–100 of `src/middleware/auth.ts`: `authenticateToken`.  `decode`
is the ambient reading of wire strings as abstract tokens (JWT decoding is a
function of the string).  Extraction and verification errors are caught by the
outer try/catch and answered with 401 `'Unauthorized'` carrying the thrown
message in the `error` field; the user lookup goes through the raw mongoose
model `UserModel.findById` (not the legacy wrapper), so a cast error also
lands in the catch; an absent user is answered with 401 `'User not found'`;
otherwise `req.user` is set and `next()` runs. -/
def authenticateToken (decode : String → Token) (store : UserStore)
    (secret : String) (now : Nat) (header : Option String) : AuthOutcome :=
  match extractTokenFromHeader header with
  | .error e => .sent 401 ⟨false, "Unauthorized", none, some e⟩
  | .ok tokenStr =>
    match verifyToken secret (decode tokenStr) now with
    | .error e => .sent 401 ⟨false, "Unauthorized", none, some e⟩
    | .ok decoded =>
      match rawFindById store decoded.userId with
      | .error e => .sent 401 ⟨false, "Unauthorized", none, some e⟩
      | .ok none =>
        .sent 401 ⟨false, "User not found", none,
          some "Authentication failed - user account may have been deleted"⟩
      | .ok (some _) => .proceeded ⟨decoded.userId, decoded.email⟩

/-! ## Theorems -/

/-- Claim C1: for every payload, verifying a token produced by `generateToken`
at a time strictly before its expiry, under the same secret, succeeds and
returns claims whose userId and email equal the input payload and whose issuer
and audience are the configured `'splitwise-api'` and `'splitwise-client'`. -/
theorem C1_token_roundtrip (payload : JwtPayload) (secret : String) (iat now : Nat)
    (h : now < iat + 12 * 60 * 60) :
    verifyToken secret (generateToken secret payload iat) now =
      .ok ⟨payload.userId, payload.email, "splitwise-api", "splitwise-client",
        iat, iat + 12 * 60 * 60⟩ := by
  simp [verifyToken, generateToken, jwtSign, jwtVerify, Nat.not_le.mpr h]

/-- Claim C1, witness: the round trip evaluated at a concrete payload, secret
and verification instant inside the 12-hour window. -/
theorem C1_token_roundtrip_witness :
    verifyToken "s3cret" (generateToken "s3cret" ⟨"u1", "a@b.c"⟩ 0) 5 =
      .ok ⟨"u1", "a@b.c", "splitwise-api", "splitwise-client", 0, 0 + 12 * 60 * 60⟩ :=
  C1_token_roundtrip ⟨"u1", "a@b.c"⟩ "s3cret" 0 5 (by decide)

/-- Claim C3, counterexample: an unexpired token signed with the correct
secret but carrying the wrong audience fails with exactly the same error as a
malformed token and as a wrong-secret token — `'Invalid token format'` — so no
distinct claim-mismatch error kind exists. -/
theorem C3_counterexample :
    verifyToken "s" (.signed ⟨"u", "e@x.c", "splitwise-api", "other-client", 0, 100⟩ "s") 0
      = .error "Invalid token format" ∧
    verifyToken "s" (.garbage "not-a-jwt") 0 = .error "Invalid token format" ∧
    verifyToken "s" (.signed ⟨"u", "e@x.c", "splitwise-api", "splitwise-client", 0, 100⟩ "wrong") 0
      = .error "Invalid token format" :=
  ⟨rfl, rfl, rfl⟩

/-- Claim C3 as amended: a valid-signature, unexpired token whose issuer or
audience differs from the configured values is rejected, but with the generic
`'Invalid token format'` error shared with malformed tokens and invalid
signatures. -/
theorem C3_claim_mismatch_not_distinct (c : DecodedClaims) (secret : String) (now : Nat)
    (hexp : now < c.exp)
    (hmis : c.iss ≠ "splitwise-api" ∨ c.aud ≠ "splitwise-client") :
    verifyToken secret (.signed c secret) now = .error "Invalid token format" := by
  unfold verifyToken jwtVerify
  rcases hmis with hiss | haud
  · by_cases haud : c.aud = "splitwise-client" <;>
      simp [Nat.not_le.mpr hexp, hiss, haud]
  · simp [Nat.not_le.mpr hexp, haud]

/-- Claim C3 amended, witness: the mismatch rejection evaluated at a concrete
unexpired token with a foreign audience. -/
theorem C3_claim_mismatch_witness :
    verifyToken "s" (.signed ⟨"u", "e@x.c", "splitwise-api", "other-client", 0, 100⟩ "s") 0
      = .error "Invalid token format" :=
  C3_claim_mismatch_not_distinct ⟨"u", "e@x.c", "splitwise-api", "other-client", 0, 100⟩
    "s" 0 (by decide) (Or.inr (by decide))

/-- Claim C4: what the code does — every issued token's expiry is its issuance
time plus the hardcoded `12 * 60 * 60` seconds, with no reference to the
configured TTL, whose default reads `'24h'` (86400 seconds). -/
theorem C4_ttl_hardcoded (secret : String) (payload : JwtPayload) (now : Nat) :
    generateToken secret payload now
      = .signed ⟨payload.userId, payload.email, "splitwise-api", "splitwise-client",
          now, now + 12 * 60 * 60⟩ secret
    ∧ JWT_EXPIRES_IN none = "24h" ∧ (12 * 60 * 60 : Nat) ≠ 24 * 60 * 60 :=
  ⟨rfl, rfl, by decide⟩

/-- Claim C5, counterexample: with no signing secret configured, `JWT_SECRET`
silently resolves to the hardcoded default and issuance proceeds, producing a
token signed under that default — it never fails with a configuration
error. -/
theorem C5_counterexample :
    JWT_SECRET none = "your-super-secret-jwt-key" ∧
    generateToken (JWT_SECRET none) ⟨"u1", "a@b.c"⟩ 0
      = .signed ⟨"u1", "a@b.c", "splitwise-api", "splitwise-client", 0, 0 + 12 * 60 * 60⟩
          "your-super-secret-jwt-key" :=
  ⟨rfl, rfl⟩

/-- Claim C5 as amended: issuance always succeeds; when no secret (or an empty
one) is configured, it falls back to the hardcoded default secret instead of
failing with `ConfigurationError`. -/
theorem C5_default_secret_fallback (env : Option String) (payload : JwtPayload) (now : Nat) :
    generateToken (JWT_SECRET env) payload now
      = .signed ⟨payload.userId, payload.email, "splitwise-api", "splitwise-client",
          now, now + 12 * 60 * 60⟩ (JWT_SECRET env)
    ∧ JWT_SECRET none = "your-super-secret-jwt-key"
    ∧ JWT_SECRET (some "") = "your-super-secret-jwt-key" :=
  ⟨rfl, rfl, rfl⟩

/-- Claim C6: the login failure for an unknown email and the login failure for
a known email with a wrong password are byte-identical — the same 401 status
and the same response payload. -/
theorem C6_enumeration_resistance (store : UserStore) (secret : String) (now : Nat)
    (e₁ p₁ e₂ p₂ : String) (u : StoredUser)
    (h₁ : findByEmail store e₁ = none)
    (h₂ : findByEmail store e₂ = some u)
    (h₃ : bcryptCompare p₂ u.password = false) :
    login store secret now e₁ p₁ = login store secret now e₂ p₂ ∧
    login store secret now e₁ p₁
      = (401, ⟨false, "Authentication failed", none, some "Invalid email or password"⟩) := by
  refine ⟨?_, ?_⟩ <;> simp [login, h₁, h₂, h₃]

/-- Claim C6, witness: the two failures evaluated on a concrete one-user store
with a non-existent email on one side and a wrong password on the other. -/
theorem C6_enumeration_resistance_witness :
    login [⟨"507f1f77bcf86cd799439011", "a@b.c", bcryptHash "abcdef" 12 0, "Jo", "Li", 0⟩]
        "s" 0 "x@y.z" "whatever"
      = login [⟨"507f1f77bcf86cd799439011", "a@b.c", bcryptHash "abcdef" 12 0, "Jo", "Li", 0⟩]
        "s" 0 "a@b.c" "wrong1" ∧
    login [⟨"507f1f77bcf86cd799439011", "a@b.c", bcryptHash "abcdef" 12 0, "Jo", "Li", 0⟩]
        "s" 0 "x@y.z" "whatever"
      = (401, ⟨false, "Authentication failed", none, some "Invalid email or password"⟩) :=
  C6_enumeration_resistance
    [⟨"507f1f77bcf86cd799439011", "a@b.c", bcryptHash "abcdef" 12 0, "Jo", "Li", 0⟩]
    "s" 0 "x@y.z" "whatever" "a@b.c" "wrong1"
    ⟨"507f1f77bcf86cd799439011", "a@b.c", bcryptHash "abcdef" 12 0, "Jo", "Li", 0⟩
    (by decide) (by decide) (by decide)

/-- Claim C7: a well-formed, correctly signed, unexpired token whose subject
id (a well-formed store identifier) matches no user in the store is rejected
with the 401 `'User not found'` response; no identity is attached and the
downstream handler is not called. -/
theorem C7_deleted_user_rejected (decode : String → Token) (store : UserStore)
    (secret : String) (now : Nat) (header ts : String) (c : DecodedClaims)
    (h₁ : extractTokenFromHeader (some header) = .ok ts)
    (h₂ : decode ts = .signed c secret)
    (h₃ : now < c.exp)
    (h₄ : c.iss = "splitwise-api") (h₅ : c.aud = "splitwise-client")
    (h₆ : isValidObjectId c.userId = true)
    (h₇ : store.find? (fun u => u.id == c.userId) = none) :
    authenticateToken decode store secret now (some header)
      = .sent 401 ⟨false, "User not found", none,
          some "Authentication failed - user account may have been deleted"⟩ := by
  have hv : verifyToken secret (decode ts) now = .ok c := by
    rw [h₂]; unfold verifyToken jwtVerify
    simp [h₄, h₅, Nat.not_le.mpr h₃]
  unfold authenticateToken
  rw [h₁]
  simp [hv, rawFindById, h₆, h₇]

/-- Claim C7, witness: a deleted-user scenario on the empty store with a
concrete signed, unexpired token carrying a well-formed store identifier. -/
theorem C7_deleted_user_rejected_witness :
    authenticateToken
        (fun _ => .signed ⟨"507f1f77bcf86cd799439011", "a@b.c",
          "splitwise-api", "splitwise-client", 0, 43200⟩ "s")
        [] "s" 0 (some "Bearer sometoken")
      = .sent 401 ⟨false, "User not found", none,
          some "Authentication failed - user account may have been deleted"⟩ :=
  C7_deleted_user_rejected
    (fun _ => .signed ⟨"507f1f77bcf86cd799439011", "a@b.c",
      "splitwise-api", "splitwise-client", 0, 43200⟩ "s")
    [] "s" 0 "Bearer sometoken" "sometoken"
    ⟨"507f1f77bcf86cd799439011", "a@b.c", "splitwise-api", "splitwise-client", 0, 43200⟩
    rfl rfl (by decide) rfl rfl (by decide) rfl

/-- Claim C8, counterexample: a present header whose value is the empty string
is answered with the missing-header error (`'Authorization header is
required'`), not the malformed-header error the claim requires for a present
value that does not split into `['Bearer', token]`. -/
theorem C8_counterexample :
    extractTokenFromHeader (some "") = .error "Authorization header is required" ∧
    ("Authorization header is required" : String)
      ≠ "Invalid authorization header format. Expected: Bearer <token>" :=
  ⟨rfl, by decide⟩

/-- Claim C8 as amended: extraction fails with the missing-header error when
the header is absent or the empty string; fails with the malformed-header
error when the (non-empty) value does not split on single spaces into exactly
`['Bearer', token]`; fails with the empty-token error when the token part is
blank; and succeeds returning exactly the token part otherwise.  It is a pure
function. -/
theorem C8_extract_cases :
    extractTokenFromHeader none = .error "Authorization header is required" ∧
    extractTokenFromHeader (some "") = .error "Authorization header is required" ∧
    (∀ h, h ≠ "" → (∀ t, jsSplitSpace h ≠ ["Bearer", t]) →
      extractTokenFromHeader (some h)
        = .error "Invalid authorization header format. Expected: Bearer <token>") ∧
    (∀ h t, h ≠ "" → jsSplitSpace h = ["Bearer", t] → jsTrim t = "" →
      extractTokenFromHeader (some h)
        = .error "Token is missing from authorization header") ∧
    (∀ h t, h ≠ "" → jsSplitSpace h = ["Bearer", t] → jsTrim t ≠ "" →
      extractTokenFromHeader (some h) = .ok t) := by
  refine ⟨rfl, rfl, ?_, ?_, ?_⟩
  · intro h hne hshape
    simp only [extractTokenFromHeader]
    rw [if_neg hne]
    cases hsp : jsSplitSpace h with
    | nil => rfl
    | cons b rest =>
      cases rest with
      | nil => rfl
      | cons t rest2 =>
        cases rest2 with
        | nil =>
          have hb : b ≠ "Bearer" := fun hb => hshape t (by rw [hsp, hb])
          simp [hb]
        | cons x xs => rfl
  · intro h t hne hsp htr
    simp only [extractTokenFromHeader]
    rw [if_neg hne, hsp]
    simp [htr]
  · intro h t hne hsp htr
    have ht : t ≠ "" := fun h0 => htr (by rw [h0]; rfl)
    simp only [extractTokenFromHeader]
    rw [if_neg hne, hsp]
    simp [ht, htr]

/-- Claim C8 amended, witness: the success, malformed and blank-token cases
evaluated at concrete header values. -/
theorem C8_extract_cases_witness :
    extractTokenFromHeader (some "Bearer abc123") = .ok "abc123" ∧
    extractTokenFromHeader (some "Basic abc")
      = .error "Invalid authorization header format. Expected: Bearer <token>" ∧
    extractTokenFromHeader (some "Bearer ")
      = .error "Token is missing from authorization header" :=
  ⟨C8_extract_cases.2.2.2.2 "Bearer abc123" "abc123" (by decide) (by decide) (by decide),
   C8_extract_cases.2.2.1 "Basic abc" (by decide)
     (fun t h => by injection h with h1 _; exact absurd h1 (by decide)),
   C8_extract_cases.2.2.2.1 "Bearer " "" (by decide) (by decide) (by decide)⟩

/-- Claim C9: the stored hash produced by the registration pre-save hook
verifies true against the original plaintext and false against any different
plaintext. -/
theorem C9_credential_roundtrip (p p' : String) (saltRounds salt : Nat)
    (hne : p' ≠ p) :
    bcryptCompare p (preSaveHash p saltRounds salt) = true ∧
    bcryptCompare p' (preSaveHash p saltRounds salt) = false := by
  constructor
  · exact beq_self_eq_true p
  · exact beq_eq_false_iff_ne.mpr hne

/-- Claim C9, witness: the round trip evaluated at the spec's concrete
scenario password `'abcdef'` against the wrong candidate `'wrong1'`. -/
theorem C9_credential_roundtrip_witness :
    bcryptCompare "abcdef" (preSaveHash "abcdef" 12 0) = true ∧
    bcryptCompare "wrong1" (preSaveHash "abcdef" 12 0) = false :=
  C9_credential_roundtrip "abcdef" "wrong1" 12 0 (by decide)

/-- Claim C2, counterexample: two different authentication rejections produce
different client-visible bodies — the `error` field of the 401 response names
the specific failure kind (`'Authorization header is required'` for a missing
header, the malformed-header text for a bad scheme), so the kind is not
confined to server-side logs. -/
theorem C2_counterexample :
    authenticateToken (fun _ => .garbage "") [] "s" 0 none
      = .sent 401 ⟨false, "Unauthorized", none,
          some "Authorization header is required"⟩ ∧
    authenticateToken (fun _ => .garbage "") [] "s" 0 (some "Basic abc")
      = .sent 401 ⟨false, "Unauthorized", none,
          some "Invalid authorization header format. Expected: Bearer <token>"⟩ ∧
    (some "Authorization header is required" : Option String)
      ≠ some "Invalid authorization header format. Expected: Bearer <token>" := by
  refine ⟨by decide, by decide, by decide⟩

/-- Claim C2 as amended: every header-extraction or token-verification
rejection is answered with status 401, `success = false` and the uniform
message `'Unauthorized'` — but the specific failure message is placed in the
client-visible `error` field of the same response. -/
theorem C2_uniform_message_leaky_error (decode : String → Token) (store : UserStore)
    (secret : String) (now : Nat) (header : Option String) :
    (∀ e, extractTokenFromHeader header = .error e →
      authenticateToken decode store secret now header
        = .sent 401 ⟨false, "Unauthorized", none, some e⟩) ∧
    (∀ ts e, extractTokenFromHeader header = .ok ts →
      verifyToken secret (decode ts) now = .error e →
      authenticateToken decode store secret now header
        = .sent 401 ⟨false, "Unauthorized", none, some e⟩) := by
  constructor
  · intro e he
    unfold authenticateToken
    rw [he]
  · intro ts e hts hv
    unfold authenticateToken
    rw [hts]
    simp [hv]

/-- Claim C2 amended, witness: the uniform-401 shape evaluated at a concrete
missing-header rejection and at a concrete expired-token rejection. -/
theorem C2_uniform_message_leaky_error_witness :
    authenticateToken (fun _ => .garbage "") [] "s" 0 none
      = .sent 401 ⟨false, "Unauthorized", none,
          some "Authorization header is required"⟩ ∧
    authenticateToken
        (fun _ => .signed ⟨"u", "a@b.c", "splitwise-api", "splitwise-client", 0, 10⟩ "s")
        [] "s" 99 (some "Bearer sometoken")
      = .sent 401 ⟨false, "Unauthorized", none, some "Token has expired"⟩ :=
  ⟨(C2_uniform_message_leaky_error (fun _ => .garbage "") [] "s" 0 none).1
      "Authorization header is required" rfl,
   (C2_uniform_message_leaky_error
      (fun _ => .signed ⟨"u", "a@b.c", "splitwise-api", "splitwise-client", 0, 10⟩ "s")
      [] "s" 99 (some "Bearer sometoken")).2
      "sometoken" "Token has expired" rfl rfl⟩

/-- Claim C10, counterexample: a correctly signed, unexpired token whose
subject id is not a well-formed store identifier is rejected through the
middleware's generic catch — 401 with message `'Unauthorized'` and the cast
failure in the `error` field — which differs from the 401 `'User not found'`
outcome of a deleted user. -/
theorem C10_counterexample :
    authenticateToken
        (fun _ => .signed ⟨"not-a-valid-object-id", "a@b.c",
          "splitwise-api", "splitwise-client", 0, 100⟩ "s")
        [] "s" 0 (some "Bearer sometoken")
      = .sent 401 ⟨false, "Unauthorized", none,
          some "Cast to ObjectId failed for value not-a-valid-object-id"⟩ ∧
    (⟨false, "Unauthorized", none,
        some "Cast to ObjectId failed for value not-a-valid-object-id"⟩ : ApiResponse)
      ≠ ⟨false, "User not found", none,
          some "Authentication failed - user account may have been deleted"⟩ := by
  refine ⟨by decide, by decide⟩

/-- Claim C10 as amended: for every verified token whose subject id is not a
well-formed store identifier, the raw lookup used by the middleware raises a
cast error and the middleware's catch converts it to a 401 response with
message `'Unauthorized'` and the cast detail in the `error` field — not the
`'User not found'` outcome — while the legacy wrapper `UserModelLegacy.findById`
(which the middleware does not use) would have returned absent; no header
value makes the middleware produce anything but a sent response or a
proceed. -/
theorem C10_invalid_id_generic_catch (decode : String → Token) (store : UserStore)
    (secret : String) (now : Nat) (header ts : String) (c : DecodedClaims)
    (h₁ : extractTokenFromHeader (some header) = .ok ts)
    (h₂ : decode ts = .signed c secret)
    (h₃ : now < c.exp)
    (h₄ : c.iss = "splitwise-api") (h₅ : c.aud = "splitwise-client")
    (h₆ : isValidObjectId c.userId = false) :
    authenticateToken decode store secret now (some header)
      = .sent 401 ⟨false, "Unauthorized", none,
          some ("Cast to ObjectId failed for value " ++ c.userId)⟩ ∧
    legacyFindById store c.userId = none := by
  have hv : verifyToken secret (decode ts) now = .ok c := by
    rw [h₂]; unfold verifyToken jwtVerify
    simp [h₄, h₅, Nat.not_le.mpr h₃]
  constructor
  · unfold authenticateToken
    rw [h₁]
    simp [hv, rawFindById, h₆]
  · unfold legacyFindById rawFindById
    simp [h₆]

/-- Claim C10 amended, witness: the generic-catch rejection and the legacy
wrapper's absent result evaluated at a concrete malformed-identifier token. -/
theorem C10_invalid_id_generic_catch_witness :
    authenticateToken
        (fun _ => .signed ⟨"not-a-valid-object-id", "a@b.c",
          "splitwise-api", "splitwise-client", 0, 100⟩ "s")
        [] "s" 0 (some "Bearer sometoken")
      = .sent 401 ⟨false, "Unauthorized", none,
          some ("Cast to ObjectId failed for value " ++ "not-a-valid-object-id")⟩ ∧
    legacyFindById [] "not-a-valid-object-id" = none :=
  C10_invalid_id_generic_catch
    (fun _ => .signed ⟨"not-a-valid-object-id", "a@b.c",
      "splitwise-api", "splitwise-client", 0, 100⟩ "s")
    [] "s" 0 "Bearer sometoken" "sometoken"
    ⟨"not-a-valid-object-id", "a@b.c", "splitwise-api", "splitwise-client", 0, 100⟩
    rfl rfl (by decide) rfl rfl (by decide)

end Splitwise
